import Mathlib

/-!
Shallow embedding of the gracht server core (src/server.c) and the socket
client link (src/link/socket/client.c), together with theorems checking the
natural-language specification against it.

Machine integers are modelled as `Nat` with explicit reductions modulo
`2 ^ 32` (or 256 for bytes) exactly where the C code truncates.  Message
buffers are byte lists; 32-bit loads and stores are little-endian, matching
the wire format.  The hashtable and mutex are external services per the
spec (section 6); the hashtable is modelled as an association list whose
operations (get, set, remove, enumerate) follow the spec's keyed-set
contract.  Fallible C functions become functions returning `Except` or
`Option`; a C null-pointer dereference is modelled as `none`.
-/

namespace Gracht

/-- The errno values used by src/server.c and src/link/socket/client.c. -/
inductive Errno
  | EALREADY
  | EINVAL
  | ENOTSUP
  | ENODATA
  | EPIPE
  | E2BIG
  | ENOENT
deriving DecidableEq, Repr

/-- Read one byte of a message buffer; the `% 256` models the `uint8_t` view
of the `char` data.  Out-of-range reads default to 0 (in C they would read
trailing allocation bytes; all theorems below stay in range). -/
def byteAt (data : List Nat) (off : Nat) : Nat :=
  data.getD off 0 % 256

/-- Little-endian 32-bit load, modelling `*((uint32_t*)&data[off])`. -/
def readU32 (data : List Nat) (off : Nat) : Nat :=
  byteAt data off + 2 ^ 8 * byteAt data (off + 1) +
    2 ^ 16 * byteAt data (off + 2) + 2 ^ 24 * byteAt data (off + 3)

/-- Little-endian 32-bit store, modelling `*((uint32_t*)&data[off]) = v`. -/
def writeU32 (data : List Nat) (off v : Nat) : List Nat :=
  (((data.set off (v % 256)).set (off + 1) (v / 2 ^ 8 % 256)).set
      (off + 2) (v / 2 ^ 16 % 256)).set (off + 3) (v / 2 ^ 24 % 256)


/-! ## Subscription bitmaps

`client->subscriptions` is `uint32_t subscriptions[8]`: 256 bits, one per
protocol id (spec section 4.5).  Modelled as a list of eight 32-bit words. -/

/-- Embeds `client_subscribe` (src/server.c lines 628-640). -/
def client_subscribe (subs : List Nat) (id : Nat) : List Nat :=
  if id = 255 then
    -- memset(&client->subscriptions[0], 0xFF, sizeof(client->subscriptions))
    List.replicate 8 (2 ^ 32 - 1)
  else
    subs.set (id / 32) (subs.getD (id / 32) 0 ||| (1 <<< (id % 32)))

/-- Embeds `client_unsubscribe` (src/server.c lines 642-654). -/
def client_unsubscribe (subs : List Nat) (id : Nat) : List Nat :=
  if id = 255 then
    -- memset(&client->subscriptions[0], 0, sizeof(client->subscriptions))
    List.replicate 8 0
  else
    subs.set (id / 32) (subs.getD (id / 32) 0 &&& ((2 ^ 32 - 1) ^^^ (1 <<< (id % 32))))

/-- Embeds `client_is_subscribed` (src/server.c lines 656-661). -/
def client_is_subscribed (subs : List Nat) (id : Nat) : Bool :=
  (subs.getD (id / 32) 0 &&& (1 <<< (id % 32))) != 0

/-! ## Client registry

`struct gracht_server_client` is owned by the link; the server sees its
`handle` and `subscriptions` fields (spec section 3, client record).  The
registry is the `clients` hashtable of `struct client_wrapper` entries keyed
by connection handle; hashtable get/set/remove/enumerate are the assumed
keyed-set service of spec section 6, modelled on an association list. -/

structure ServerClient where
  handle : Nat
  subscriptions : List Nat
deriving DecidableEq, Repr

/-- The client registry: pairs of (wrapper handle, client record). -/
abbrev Registry := List (Nat × ServerClient)

/-- Modelled from the spec: `hashtable_get`, lookup by key. -/
def hashtable_get (l : Registry) (k : Nat) : Option ServerClient :=
  match l with
  | [] => none
  | e :: rest => if e.1 = k then some e.2 else hashtable_get rest k

/-- Modelled from the spec: `hashtable_set`, insert or replace by key. -/
def hashtable_set (l : Registry) (k : Nat) (v : ServerClient) : Registry :=
  match l with
  | [] => [(k, v)]
  | e :: rest => if e.1 = k then (k, v) :: rest else e :: hashtable_set rest k v

/-- Modelled from the spec: `hashtable_remove`, returning the removed record. -/
def hashtable_remove (l : Registry) (k : Nat) : Option (ServerClient × Registry) :=
  match l with
  | [] => none
  | e :: rest =>
    if e.1 = k then some (e.2, rest)
    else (hashtable_remove rest k).map (fun p => (p.1, e :: p.2))

/-! ## Observable server events

Calls the server makes into the link or the user callbacks, recorded in
order so that theorems can speak about which calls happen and when. -/

inductive SEvent
  | clientConnectedCb (handle : Nat)
  | clientDisconnectedCb (handle : Nat)
  | linkDestroyClient (handle : Nat)
  | aioAdd (handle : Nat)
  | aioRemove (handle : Nat)
deriving DecidableEq, Repr

/-- Embeds `client_destroy` (src/server.c lines 612-625): fire the
`clientDisconnected` callback when installed, then remove the wrapper from
the registry and, only if one was removed, call the link's
`destroy_client` on the stored client. -/
def client_destroy (clients : Registry) (hasDisconnectedCb : Bool) (handle : Nat) :
    Registry × List SEvent :=
  let cbLog := if hasDisconnectedCb then [SEvent.clientDisconnectedCb handle] else []
  match hashtable_remove clients handle with
  | none => (clients, cbLog)
  | some (entry, rest) => (rest, cbLog ++ [SEvent.linkDestroyClient entry.handle])

/-- Embeds `gracht_control_subscribe_invocation` (src/server.c lines
664-685).  `create_client` stands for the result of the link's
`create_client` call (`none` = failure).  The result is `none` when the C
code dereferences a null pointer: after inserting the newly created
client, the code calls `client_subscribe(entry->client, protocol)` where
`entry` is still the null result of the failed lookup. -/
def gracht_control_subscribe_invocation (clients : Registry) (hasConnectedCb : Bool)
    (msgClient : Nat) (protocol : Nat) (create_client : Option ServerClient) :
    Option (Registry × List SEvent) :=
  match hashtable_get clients msgClient with
  | some entry =>
    -- client_subscribe mutates the client object stored (by pointer) in the
    -- registry; modelled by replacing the record under the same key
    some (hashtable_set clients msgClient
      { entry with subscriptions := client_subscribe entry.subscriptions protocol }, [])
  | none =>
    match create_client with
    | none => some (clients, [])  -- create_client failed: log the error and return
    | some newClient =>
      let clients1 := hashtable_set clients msgClient newClient
      let log1 := if hasConnectedCb then [SEvent.clientConnectedCb msgClient] else []
      -- the code now executes client_subscribe(entry->client, protocol)
      -- with entry = NULL: undefined behavior
      let _ := clients1
      let _ := log1
      none

/-- Embeds `gracht_control_unsubscribe_invocation` (src/server.c lines
687-702): clear the bit (all bits for 0xFF) on the registered client, and
for 0xFF additionally run `client_destroy`. -/
def gracht_control_unsubscribe_invocation (clients : Registry) (hasDisconnectedCb : Bool)
    (msgClient : Nat) (protocol : Nat) : Registry × List SEvent :=
  match hashtable_get clients msgClient with
  | none => (clients, [])
  | some entry =>
    let clients1 := hashtable_set clients msgClient
      { entry with subscriptions := client_unsubscribe entry.subscriptions protocol }
    if protocol = 255 then client_destroy clients1 hasDisconnectedCb msgClient
    else (clients1, [])

/-! ## Broadcast -/

/-- A `gracht_buffer_t`: message bytes plus the current cursor. -/
structure GrachtBuffer where
  data : List Nat
  index : Nat
deriving DecidableEq, Repr

/-- Embeds `client_enum_broadcast` (src/server.c lines 717-727) as the body
of the registry enumeration: read the protocol byte at offset 8 of the
message data and, when the client is subscribed to it, send the message via
`send_client`.  `sendOk` gives the outcome of each send; the C code
discards it.  Each attempted send is recorded as (handle, outcome). -/
def client_enum_broadcast (msgData : List Nat) (sendOk : Nat → Bool)
    (acc : List (Nat × Bool)) (entry : Nat × ServerClient) : List (Nat × Bool) :=
  if client_is_subscribed entry.2.subscriptions (byteAt msgData 8) then
    acc ++ [(entry.1, sendOk entry.1)]
  else acc

/-- Embeds `gracht_server_broadcast_event` (src/server.c lines 566-579):
write the cursor into the length word of the header, enumerate the client
registry with `client_enum_broadcast`, and return 0. -/
def gracht_server_broadcast_event (clients : Registry) (message : GrachtBuffer)
    (flags : Nat) (sendOk : Nat → Bool) : GrachtBuffer × List (Nat × Bool) × Int :=
  let _ := flags
  let data1 := writeU32 message.data 4 message.index
  let sends := clients.foldl (client_enum_broadcast data1 sendOk) []
  ({ message with data := data1 }, sends, 0)

/-! ## Receive context, action invocation and respond -/

/-- A `struct gracht_recv_message`: the originating connection handle, the
payload bytes and the parse cursor (`index`).  The structure definition and
the link receive code that fills it live outside src/. -/
structure RecvMessage where
  client : Nat
  payload : List Nat
  index : Nat
deriving DecidableEq, Repr

/-- Modelled from the spec: `GRACHT_MESSAGE_HEADER_SIZE` is defined in a
header outside src/; per the wire format (spec section 4.1) the fixed
header is 12 bytes. -/
def GRACHT_MESSAGE_HEADER_SIZE : Nat := 12

inductive InvokeOutcome
  | invoked (messageId : Nat) (protocol : Nat) (action : Nat) (callIndex : Nat)
  | errorEvent (target : Nat) (messageId : Nat) (code : Errno)
deriving DecidableEq, Repr

/-- Embeds `server_invoke_action` (src/server.c lines 441-466): parse
(id, protocol, action) at the message's current index, then either invoke
the resolved action with the cursor advanced past the header, or emit a
control-protocol error event carrying the id.  `actionExists` stands for
the registry lookup result (the action tables are opaque function
pointers). -/
def server_invoke_action (m : RecvMessage) (actionExists : Bool) : InvokeOutcome :=
  let messageId := readU32 m.payload (m.index + 0)
  let protocol := byteAt m.payload (m.index + 8)
  let action := byteAt m.payload (m.index + 9)
  if actionExists then
    InvokeOutcome.invoked messageId protocol action (m.index + GRACHT_MESSAGE_HEADER_SIZE)
  else
    InvokeOutcome.errorEvent m.client messageId Errno.ENOENT

/-- The request id `server_invoke_action` reads: the 32-bit word at the
message's parse cursor (src/server.c line 450). -/
def server_invoke_action_messageId (m : RecvMessage) : Nat :=
  readU32 m.payload (m.index + 0)

/-- Where a response leaves the server: `send_client` to a registered
client, or the link's `respond` (datagram reply-to) otherwise. -/
inductive RespondTarget
  | sendClient (handle : Nat)
  | linkRespond
deriving DecidableEq, Repr

/-- Embeds `gracht_server_respond` (src/server.c lines 521-544): null
checks, then copy the first 32-bit word of the request payload into the
response header, write the cursor into the length word, and send to the
registered client or through the link's datagram respond. -/
def gracht_server_respond (clients : Registry) (ctx : Option RecvMessage)
    (message : Option GrachtBuffer) : Except Errno (GrachtBuffer × RespondTarget) :=
  match ctx, message with
  | some ctx, some message =>
    let data1 := writeU32 message.data 0 (readU32 ctx.payload 0)
    let data2 := writeU32 data1 4 message.index
    let out : GrachtBuffer := { message with data := data2 }
    match hashtable_get clients ctx.client with
    | none => Except.ok (out, RespondTarget.linkRespond)
    | some entry => Except.ok (out, RespondTarget.sendClient entry.handle)
  | _, _ => Except.error Errno.EINVAL

/-- The response id carried by a successful `gracht_server_respond`: the
32-bit word at offset 0 of the outgoing header. -/
def responseIdOf (r : Except Errno (GrachtBuffer × RespondTarget)) : Option Nat :=
  match r with
  | Except.ok (b, _) => some (readU32 b.data 0)
  | Except.error _ => none

/-! ## Socket link (src/link/socket/client.c)

The link code is parameterized by what the kernel does: the byte counts
`recv`/`recvmsg`/`sendmsg` return are inputs of the model. -/

/-- The two configured socket kinds, plus any other enum value (the C
switch has an else branch). -/
inductive SocketType
  | streamBased
  | packetBased
  | otherKind
deriving DecidableEq, Repr

/-- The receive flag bits the link manipulates. -/
structure RecvFlags where
  waitall : Bool
  dontwait : Bool
deriving DecidableEq, Repr

/-- Embeds the flag conversion at the head of `socket_link_recv`
(src/link/socket/client.c lines 230-234): start from `MSG_WAITALL` and add
`MSG_DONTWAIT` unless `GRACHT_WAIT_BLOCK` was requested. -/
def socket_link_recv_flags (blockRequested : Bool) : RecvFlags :=
  { waitall := true, dontwait := !blockRequested }

/-- Embeds the dispatch of `socket_link_recv` (src/link/socket/client.c
lines 227-245), observing which flags reach the underlying
`recv`/`recvmsg` call of `socket_link_recv_stream` (line 104, and line 119
for the payload read which ors in `MSG_WAITALL` again) or
`socket_link_recv_packet` (line 191). -/
def socket_link_recv_underlying_flags (stype : SocketType) (blockRequested : Bool) :
    Except Errno RecvFlags :=
  let convertedFlags := socket_link_recv_flags blockRequested
  match stype with
  | SocketType.streamBased => Except.ok convertedFlags
  | SocketType.packetBased => Except.ok convertedFlags
  | SocketType.otherKind => Except.error Errno.ENOTSUP

/-- Modelled from the spec: `sizeof(struct gracht_message)` — the struct
definition lives in a header outside src/; per the wire format (spec
section 4.1) the fixed part before the parameter vector is 12 bytes. -/
def sizeof_gracht_message : Nat := 12

/-- Embeds `socket_link_recv_stream` (src/link/socket/client.c lines
96-131).  `headerBytesRead` and `payloadBytesRead` are what the two `recv`
calls return; `msgLength` and `paramIn` are the `header.length` and
`header.param_in` fields of the header just read. -/
def socket_link_recv_stream (headerBytesRead payloadBytesRead msgLength paramIn : Nat) :
    Except Errno Unit :=
  if headerBytesRead ≠ sizeof_gracht_message then
    if headerBytesRead = 0 then Except.error Errno.ENODATA
    else Except.error Errno.EPIPE
  else if paramIn ≠ 0 then
    if payloadBytesRead ≠ msgLength - sizeof_gracht_message then Except.error Errno.EPIPE
    else Except.ok ()
  else Except.ok ()

/-- Embeds `socket_link_recv_packet` (src/link/socket/client.c lines
175-204): one `recvmsg` into the buffer past the reserved peer-address
space; short datagrams fail with `EPIPE` (`ENODATA` when empty). -/
def socket_link_recv_packet (recvmsgBytes : Nat) : Except Errno Unit :=
  if recvmsgBytes < sizeof_gracht_message then
    if recvmsgBytes = 0 then Except.error Errno.ENODATA
    else Except.error Errno.EPIPE
  else Except.ok ()

/-- Result of `socket_link_send`: the returned status code and, when the
status is an error, the errno; `transmitted` records whether `sendmsg` was
reached (false = rejected before any byte left the process). -/
structure SendResult where
  isError : Bool
  errno : Option Errno
  transmitted : Bool
deriving DecidableEq, Repr

/-- Embeds `socket_link_send` (src/link/socket/client.c lines 247-267)
together with `socket_link_send_stream` / `socket_link_send_packet`
(lines 56-94 and 133-173): reject messages whose header length exceeds the
maximum before sending (`E2BIG`), then hand the scatter-gather vector to
`sendmsg`, whose return value `sendmsgBytes` must equal the header length
(`EPIPE` otherwise).  `GRACHT_MAX_MESSAGE_SIZE` is a constant from a header
outside src/ and is a parameter `maxMessageSize` here. -/
def socket_link_send (stype : SocketType) (msgLength maxMessageSize sendmsgBytes : Nat) :
    SendResult :=
  if msgLength > maxMessageSize then
    { isError := true, errno := some Errno.E2BIG, transmitted := false }
  else
    match stype with
    | SocketType.streamBased =>
      if sendmsgBytes = msgLength then
        { isError := false, errno := none, transmitted := true }
      else
        { isError := true, errno := some Errno.EPIPE, transmitted := true }
    | SocketType.packetBased =>
      if sendmsgBytes = msgLength then
        { isError := false, errno := none, transmitted := true }
      else
        { isError := true, errno := some Errno.EPIPE, transmitted := true }
    | SocketType.otherKind =>
      { isError := true, errno := some Errno.ENOTSUP, transmitted := false }

/-! ## Server state and the event path (src/server.c) -/

/-- The parts of `struct gracht_server` the claims observe.  The protocol
registry holds opaque action tables; it is modelled by the stored protocol
ids. -/
structure ServerState where
  initialized : Bool
  listen_handle : Option Nat
  dgram_handle : Option Nat
  clients : Registry
  protocols : List Nat
  hasConnectedCb : Bool
  hasDisconnectedCb : Bool
deriving DecidableEq, Repr

/-- An aio event mask: the `IN` bit, the `DISCONNECT` bit, and whether any
other bit is set (so that `!events` is expressible). -/
structure AioEvents where
  input : Bool
  disconnect : Bool
  other : Bool
deriving DecidableEq, Repr

/-- One iteration of a drain loop, as seen from the server: what
`recv_client` / `recv_packet` reported. -/
inductive RecvOutcome
  | okDispatched
  | err (e : Errno)
deriving DecidableEq, Repr

/-- Buffer-provider traffic (`get_incoming_buffer` / `put_message`). -/
inductive BufOp
  | get
  | put
deriving DecidableEq, Repr

/-- The observable result of one `gracht_server_handle_event` call. -/
structure HandleEventResult where
  status : Int
  state : ServerState
  log : List SEvent
  bufOps : List BufOp
  dispatched : Nat
deriving DecidableEq, Repr

/-- The drain loop shared by `handle_async_event` and `handle_sync_event`:
acquire a buffer, receive, dispatch on success, return the buffer and stop
on error.  Driven by the trace of receive outcomes; the C loop runs until
a receive fails, so the traces used by the theorems end in an error.
Returns (dispatch count, buffer ops, loop-exit status). -/
def drain_loop : List RecvOutcome → Nat × List BufOp × Int
  | [] => (0, [], 0)
  | RecvOutcome.okDispatched :: rest =>
    let (n, ops, st) := drain_loop rest
    (n + 1, BufOp.get :: ops, st)
  | RecvOutcome.err _ :: _ => (0, [BufOp.get, BufOp.put], -1)

/-- Embeds `handle_async_event` (src/server.c lines 364-399): a
`DISCONNECT` event removes the handle from the aio set and destroys the
client; an `IN` (or empty) event drains the client found in the registry —
when the handle has no entry the loop body is never entered.  Dispatching
is recorded by count; the state effects of dispatched control messages are
the control invocations modelled above, and every theorem below concerns
runs that dispatch nothing. -/
def handle_async_event (st : ServerState) (handle : Nat) (events : AioEvents)
    (recvTrace : List RecvOutcome) : HandleEventResult :=
  if events.disconnect then
    let (clients1, log) := client_destroy st.clients st.hasDisconnectedCb handle
    { status := 0, state := { st with clients := clients1 },
      log := SEvent.aioRemove handle :: log, bufOps := [], dispatched := 0 }
  else if events.input || (!events.input && !events.disconnect && !events.other) then
    match hashtable_get st.clients handle with
    | none => { status := 0, state := st, log := [], bufOps := [], dispatched := 0 }
    | some _ =>
      let (n, ops, _) := drain_loop recvTrace
      { status := 0, state := st, log := [], bufOps := ops, dispatched := n }
  else
    { status := 0, state := st, log := [], bufOps := [], dispatched := 0 }

/-- Embeds `handle_sync_event` (src/server.c lines 342-362): drain the
datagram socket with `recv_packet` until it fails. -/
def handle_sync_event (st : ServerState) (recvTrace : List RecvOutcome) :
    HandleEventResult :=
  let (n, ops, status) := drain_loop recvTrace
  { status := status, state := st, log := [], bufOps := ops, dispatched := n }

/-- Embeds `handle_client_socket` (src/server.c lines 268-286): accept,
insert the new client into the registry, register with aio, fire the
`clientConnected` callback.  `acceptResult` is what the link's `accept`
produced (`none` = failure). -/
def handle_client_socket (st : ServerState) (acceptResult : Option ServerClient) :
    HandleEventResult :=
  match acceptResult with
  | none => { status := -1, state := st, log := [], bufOps := [], dispatched := 0 }
  | some client =>
    { status := 0,
      state := { st with clients := hashtable_set st.clients client.handle client },
      log := [SEvent.aioAdd client.handle] ++
        (if st.hasConnectedCb then [SEvent.clientConnectedCb client.handle] else []),
      bufOps := [], dispatched := 0 }

/-- Embeds `gracht_server_handle_event` (src/server.c lines 479-490):
classify the handle as listener, datagram socket, or client. -/
def gracht_server_handle_event (st : ServerState) (handle : Nat) (events : AioEvents)
    (acceptResult : Option ServerClient) (recvTrace : List RecvOutcome) :
    HandleEventResult :=
  if st.listen_handle = some handle then handle_client_socket st acceptResult
  else if st.dgram_handle = some handle then handle_sync_event st recvTrace
  else handle_async_event st handle events recvTrace

/-! ## Initialization (src/server.c lines 137-266) -/

/-- Embeds `create_links` (src/server.c lines 237-266).  Each `listen`
outcome is `Except.ok handle` or `Except.error errno` (the C code returns
`GRACHT_CONN_INVALID` with errno set).  Returns the status and the two
handles as assigned (`none` = invalid). -/
def create_links (listenStream listenDgram : Except Errno Nat) :
    Int × Option Nat × Option Nat :=
  match listenStream with
  | Except.error e =>
    if e ≠ Errno.ENOTSUP then (-1, none, none)
    else
      match listenDgram with
      | Except.error e2 =>
        if e2 ≠ Errno.ENOTSUP then (-1, none, none)
        else (-1, none, none)  -- both handles invalid: hard failure
      | Except.ok hd => (0, none, some hd)
  | Except.ok hs =>
    match listenDgram with
    | Except.error e2 =>
      if e2 ≠ Errno.ENOTSUP then (-1, some hs, none)
      else (0, some hs, none)
    | Except.ok hd => (0, some hs, some hd)

/-- The observable result of `gracht_server_initialize`: the returned
status, the errno this function itself set, and the server state. -/
structure InitResult where
  status : Int
  errnoSet : Option Errno
  state : ServerState
deriving DecidableEq, Repr

/-- Embeds `gracht_server_initialize` (src/server.c lines 137-169): reject
when already initialized (`EALREADY`) or the configuration is null
(`EINVAL`); then `configure_server` (aio handle, buffers, worker pool —
its success is the input `configureOk`), then `create_links`, then
construct the registries, register the control protocol (id 0) and mark
the server initialized. -/
def gracht_server_initialize_impl (st : ServerState) (config : Option Unit)
    (configureOk : Bool) (listenStream listenDgram : Except Errno Nat) : InitResult :=
  if st.initialized then
    { status := -1, errnoSet := some Errno.EALREADY, state := st }
  else if config.isNone then
    { status := -1, errnoSet := some Errno.EINVAL, state := st }
  else if !configureOk then
    { status := -1, errnoSet := none, state := st }
  else
    let (clStatus, sh, dh) := create_links listenStream listenDgram
    let st1 := { st with listen_handle := sh, dgram_handle := dh }
    if clStatus ≠ 0 then
      { status := -1, errnoSet := none, state := st1 }
    else
      { status := 0, errnoSet := none,
        state := { st1 with clients := [], protocols := [0], initialized := true } }

/-! ## Helper lemmas -/

theorem byteAt_lt (data : List Nat) (off : Nat) : byteAt data off < 256 :=
  Nat.mod_lt _ (by norm_num)

theorem readU32_lt (data : List Nat) (off : Nat) : readU32 data off < 2 ^ 32 := by
  have h0 := byteAt_lt data off
  have h1 := byteAt_lt data (off + 1)
  have h2 := byteAt_lt data (off + 2)
  have h3 := byteAt_lt data (off + 3)
  unfold readU32
  omega

theorem getD_set_self (l : List Nat) (i x : Nat) (h : i < l.length) :
    (l.set i x).getD i 0 = x := by
  simp [List.getD_eq_getElem?_getD, List.getElem?_set_eq_of_lt x h]

theorem getD_set_of_ne (l : List Nat) (i j x : Nat) (h : i ≠ j) :
    (l.set i x).getD j 0 = l.getD j 0 := by
  simp [List.getD_eq_getElem?_getD, List.getElem?_set_ne h]

theorem length_writeU32 (data : List Nat) (off v : Nat) :
    (writeU32 data off v).length = data.length := by
  simp [writeU32]

/-- Bytes strictly outside `[off, off+3]` are untouched by a 32-bit store. -/
theorem byteAt_writeU32_outside (data : List Nat) (off v j : Nat)
    (h : j < off ∨ off + 3 < j) : byteAt (writeU32 data off v) j = byteAt data j := by
  unfold byteAt writeU32
  rw [getD_set_of_ne _ _ _ _ (by omega), getD_set_of_ne _ _ _ _ (by omega),
    getD_set_of_ne _ _ _ _ (by omega), getD_set_of_ne _ _ _ _ (by omega)]

/-- Storing then loading a 32-bit word at the same offset returns the word
reduced modulo `2 ^ 32`, provided the four bytes are inside the buffer. -/
theorem readU32_writeU32_same (data : List Nat) (off v : Nat)
    (h : off + 3 < data.length) : readU32 (writeU32 data off v) off = v % 2 ^ 32 := by
  have b0 : byteAt (writeU32 data off v) off = v % 256 % 256 := by
    unfold byteAt writeU32
    rw [getD_set_of_ne _ _ _ _ (by omega), getD_set_of_ne _ _ _ _ (by omega),
      getD_set_of_ne _ _ _ _ (by omega), getD_set_self _ _ _ (by omega)]
  have b1 : byteAt (writeU32 data off v) (off + 1) = v / 2 ^ 8 % 256 % 256 := by
    unfold byteAt writeU32
    rw [getD_set_of_ne _ _ _ _ (by omega), getD_set_of_ne _ _ _ _ (by omega),
      getD_set_self _ _ _ (by simp only [List.length_set]; omega)]
  have b2 : byteAt (writeU32 data off v) (off + 2) = v / 2 ^ 16 % 256 % 256 := by
    unfold byteAt writeU32
    rw [getD_set_of_ne _ _ _ _ (by omega),
      getD_set_self _ _ _ (by simp only [List.length_set]; omega)]
  have b3 : byteAt (writeU32 data off v) (off + 3) = v / 2 ^ 24 % 256 % 256 := by
    unfold byteAt writeU32
    rw [getD_set_self _ _ _ (by simp only [List.length_set]; omega)]
  unfold readU32
  rw [b0, b1, b2, b3]
  omega

theorem hashtable_get_eq_none (l : Registry) (k : Nat) :
    hashtable_get l k = none ↔ k ∉ l.map Prod.fst := by
  induction l with
  | nil => simp [hashtable_get]
  | cons e rest ih =>
    rw [List.map_cons]
    by_cases h : e.1 = k
    · simp [hashtable_get, h]
    · have h2 : ¬k = e.1 := fun heq => h heq.symm
      simp [hashtable_get, h, h2, ih]

theorem mem_keys_of_get_some (l : Registry) (k : Nat) (c : ServerClient)
    (h : hashtable_get l k = some c) : k ∈ l.map Prod.fst := by
  induction l with
  | nil => simp [hashtable_get] at h
  | cons e rest ih =>
    by_cases he : e.1 = k
    · simp [he]
    · simp [hashtable_get, he] at h
      simp [ih h]

theorem keys_hashtable_set_of_mem (l : Registry) (k : Nat) (v : ServerClient)
    (h : k ∈ l.map Prod.fst) :
    (hashtable_set l k v).map Prod.fst = l.map Prod.fst := by
  induction l with
  | nil => simp at h
  | cons e rest ih =>
    by_cases he : e.1 = k
    · simp [hashtable_set, he]
    · rw [List.map_cons, List.mem_cons] at h
      rcases h with h1 | h1
      · exact absurd h1.symm he
      · simp [hashtable_set, he, ih h1]

theorem hashtable_remove_of_get_some (l : Registry) (k : Nat) (c : ServerClient)
    (h : hashtable_get l k = some c) :
    ∃ rest, hashtable_remove l k = some (c, rest) := by
  induction l with
  | nil => simp [hashtable_get] at h
  | cons e rest ih =>
    by_cases he : e.1 = k
    · simp [hashtable_get, he] at h
      exact ⟨rest, by simp [hashtable_remove, he, h]⟩
    · simp [hashtable_get, he] at h
      obtain ⟨r, hr⟩ := ih h
      exact ⟨e :: r, by simp [hashtable_remove, he, hr]⟩

theorem not_mem_keys_hashtable_remove (l : Registry) (k : Nat)
    (hnd : (l.map Prod.fst).Nodup) (c : ServerClient) (rest : Registry)
    (h : hashtable_remove l k = some (c, rest)) : k ∉ rest.map Prod.fst := by
  induction l generalizing rest with
  | nil => simp [hashtable_remove] at h
  | cons e tail ih =>
    rw [List.map_cons] at hnd
    have hnd1 : e.1 ∉ tail.map Prod.fst := (List.nodup_cons.mp hnd).1
    have hnd2 : (tail.map Prod.fst).Nodup := (List.nodup_cons.mp hnd).2
    simp only [hashtable_remove] at h
    by_cases he : e.1 = k
    · rw [if_pos he] at h
      have h2 := Option.some.inj h
      have hrest : tail = rest := congrArg Prod.snd h2
      subst he
      rw [← hrest]
      exact hnd1
    · rw [if_neg he] at h
      cases hr : hashtable_remove tail k with
      | none => rw [hr] at h; exact Option.noConfusion h
      | some p =>
        obtain ⟨r, hrem⟩ := p
        rw [hr] at h
        have h2 : (r, e :: hrem) = (c, rest) := Option.some.inj h
        have hc : r = c := congrArg Prod.fst h2
        have hrest : e :: hrem = rest := congrArg Prod.snd h2
        rw [← hrest, List.map_cons]
        intro hmem
        rcases List.mem_cons.mp hmem with h1 | h1
        · exact he h1.symm
        · exact ih hnd2 hrem (by rw [hr, hc]) h1

theorem hashtable_get_hashtable_set (l : Registry) (k : Nat) (v : ServerClient) :
    hashtable_get (hashtable_set l k v) k = some v := by
  induction l with
  | nil => simp [hashtable_set, hashtable_get]
  | cons e rest ih =>
    by_cases he : e.1 = k
    · simp [hashtable_set, he, hashtable_get]
    · simp [hashtable_set, he, hashtable_get, ih]

theorem hashtable_remove_eq_none (l : Registry) (k : Nat)
    (h : hashtable_get l k = none) : hashtable_remove l k = none := by
  induction l with
  | nil => rfl
  | cons e rest ih =>
    by_cases he : e.1 = k
    · simp [hashtable_get, he] at h
    · simp [hashtable_get, he] at h
      simp [hashtable_remove, he, ih h]

theorem broadcast_foldl (d : List Nat) (s : Nat → Bool) (clients : Registry)
    (acc : List (Nat × Bool)) :
    clients.foldl (client_enum_broadcast d s) acc =
      acc ++ (clients.filter (fun e =>
        client_is_subscribed e.2.subscriptions (byteAt d 8))).map
        (fun e => (e.1, s e.1)) := by
  induction clients generalizing acc with
  | nil => simp
  | cons e rest ih =>
    by_cases hsub : client_is_subscribed e.2.subscriptions (byteAt d 8)
    · simp [client_enum_broadcast, hsub, ih]
    · simp [client_enum_broadcast, hsub, ih]

theorem broadcast_sends_eq (clients : Registry) (message : GrachtBuffer)
    (flags : Nat) (sendOk : Nat → Bool) :
    (gracht_server_broadcast_event clients message flags sendOk).2.1 =
      (clients.filter (fun e =>
        client_is_subscribed e.2.subscriptions (byteAt message.data 8))).map
        (fun e => (e.1, sendOk e.1)) := by
  have hb : byteAt (writeU32 message.data 4 message.index) 8 = byteAt message.data 8 :=
    byteAt_writeU32_outside _ _ _ _ (by omega)
  show clients.foldl (client_enum_broadcast (writeU32 message.data 4 message.index)
      sendOk) [] = _
  rw [broadcast_foldl, hb]
  simp

/-! ## Claim theorems -/

/-- C1 (code bug): processing a subscribe control-message from a handle
with no entry in the client registry crashes: after creating the client
through the link and inserting it, `gracht_control_subscribe_invocation`
calls `client_subscribe(entry->client, protocol)` where `entry` is still
the null result of the failed lookup (src/server.c lines 668-684), so the
subscription bit is never set on the newly created record.  Evaluating the
model at the failing input yields the crash marker `none`. -/
theorem subscribe_unregistered_dereferences_null :
    gracht_control_subscribe_invocation [] true 5 3
      (some { handle := 5, subscriptions := List.replicate 8 0 }) = none := rfl

/-- C9: `client_destroy` fires the `clientDisconnected` callback (when
installed) before the registry lookup — so it fires even when the handle
has no registry entry — and the link's `destroy_client` runs exactly when
an entry was found and removed, after the callback. -/
theorem client_destroy_callback_and_destroy (clients : Registry) (hasCb : Bool)
    (h : Nat) :
    (hashtable_get clients h = none →
      client_destroy clients hasCb h =
        (clients, if hasCb then [SEvent.clientDisconnectedCb h] else [])) ∧
    (∀ c, hashtable_get clients h = some c →
      (client_destroy clients hasCb h).2 =
        (if hasCb then [SEvent.clientDisconnectedCb h] else []) ++
          [SEvent.linkDestroyClient c.handle]) := by
  constructor
  · intro hnone
    simp [client_destroy, hashtable_remove_eq_none clients h hnone]
  · intro c hsome
    obtain ⟨rest, hrem⟩ := hashtable_remove_of_get_some clients h c hsome
    simp [client_destroy, hrem]

theorem client_destroy_callback_witness :
    client_destroy [] true 1 = ([], [SEvent.clientDisconnectedCb 1]) :=
  (client_destroy_callback_and_destroy [] true 1).1 rfl

/-- C3: `gracht_server_broadcast_event` returns 0 and attempts a
`send_client` to exactly the clients whose subscription bit for the
protocol byte at offset 8 of the message data is set at enumeration time;
the set of clients sent to does not depend on the per-client send
outcomes, so a send error on one client never prevents delivery to the
remaining clients. -/
theorem broadcast_event_delivery (clients : Registry) (message : GrachtBuffer)
    (flags : Nat) (sendOk : Nat → Bool) :
    (gracht_server_broadcast_event clients message flags sendOk).2.2 = 0 ∧
    (gracht_server_broadcast_event clients message flags sendOk).2.1 =
      (clients.filter (fun e =>
        client_is_subscribed e.2.subscriptions (byteAt message.data 8))).map
        (fun e => (e.1, sendOk e.1)) ∧
    (∀ sendOk2 : Nat → Bool,
      ((gracht_server_broadcast_event clients message flags sendOk2).2.1.map Prod.fst) =
        ((gracht_server_broadcast_event clients message flags sendOk).2.1.map Prod.fst)) := by
  refine ⟨rfl, broadcast_sends_eq clients message flags sendOk, ?_⟩
  intro sendOk2
  rw [broadcast_sends_eq, broadcast_sends_eq]
  simp [List.map_map]

/-- C2: for a handle with a client record, an unsubscribe control-message
with protocol id 0xFF clears all 256 subscription bits (the bitmap becomes
eight zero words) and runs full `client_destroy`: afterwards the handle has
no entry in the client registry, and no `gracht_server_broadcast_event` on
the resulting registry attempts a send to that handle. -/
theorem unsubscribe_all_destroys_client (clients : Registry) (hasCb : Bool)
    (h : Nat) (c : ServerClient) (hnd : (clients.map Prod.fst).Nodup)
    (hget : hashtable_get clients h = some c) :
    client_unsubscribe c.subscriptions 255 = List.replicate 8 0 ∧
    hashtable_get (gracht_control_unsubscribe_invocation clients hasCb h 255).1 h = none ∧
    (∀ (message : GrachtBuffer) (flags : Nat) (sendOk : Nat → Bool) (p : Nat × Bool),
      p ∈ (gracht_server_broadcast_event
            (gracht_control_unsubscribe_invocation clients hasCb h 255).1
            message flags sendOk).2.1 → p.1 ≠ h) := by
  have hmem : h ∈ clients.map Prod.fst := mem_keys_of_get_some clients h c hget
  set c1 : ServerClient :=
    { c with subscriptions := client_unsubscribe c.subscriptions 255 } with hc1
  have hkeys : (hashtable_set clients h c1).map Prod.fst = clients.map Prod.fst :=
    keys_hashtable_set_of_mem clients h c1 hmem
  have hnd1 : ((hashtable_set clients h c1).map Prod.fst).Nodup := by
    rw [hkeys]; exact hnd
  have hget1 : hashtable_get (hashtable_set clients h c1) h = some c1 :=
    hashtable_get_hashtable_set clients h c1
  obtain ⟨rest, hrem⟩ :=
    hashtable_remove_of_get_some (hashtable_set clients h c1) h c1 hget1
  have hnotmem : h ∉ rest.map Prod.fst :=
    not_mem_keys_hashtable_remove (hashtable_set clients h c1) h hnd1 c1 rest hrem
  have hresult : (gracht_control_unsubscribe_invocation clients hasCb h 255).1 = rest := by
    simp [gracht_control_unsubscribe_invocation, hget, client_destroy, ← hc1, hrem]
  refine ⟨by simp [client_unsubscribe], ?_, ?_⟩
  · rw [hresult]
    exact (hashtable_get_eq_none rest h).mpr hnotmem
  · intro message flags sendOk p hp
    rw [hresult] at hp
    rw [broadcast_sends_eq rest message flags sendOk] at hp
    obtain ⟨e, he, hpe⟩ := List.mem_map.mp hp
    have hemem : e ∈ rest := List.mem_of_mem_filter he
    intro hph
    apply hnotmem
    rw [← hph, ← hpe]
    exact List.mem_map_of_mem Prod.fst hemem

theorem unsubscribe_all_destroys_client_witness :
    client_unsubscribe (List.replicate 8 (2 ^ 32 - 1)) 255 = List.replicate 8 0 ∧
    hashtable_get (gracht_control_unsubscribe_invocation
      [(4, { handle := 4, subscriptions := List.replicate 8 (2 ^ 32 - 1) })]
      true 4 255).1 4 = none := by
  have := unsubscribe_all_destroys_client
    [(4, { handle := 4, subscriptions := List.replicate 8 (2 ^ 32 - 1) })]
    true 4 { handle := 4, subscriptions := List.replicate 8 (2 ^ 32 - 1) }
    (by simp) (by simp [hashtable_get])
  exact ⟨this.1, this.2.1⟩

theorem readU32_writeU32_disjoint (data : List Nat) (off v o2 : Nat)
    (h : o2 + 3 < off ∨ off + 3 < o2) :
    readU32 (writeU32 data off v) o2 = readU32 data o2 := by
  unfold readU32
  rw [byteAt_writeU32_outside _ _ _ _ (by omega),
    byteAt_writeU32_outside _ _ _ _ (by omega),
    byteAt_writeU32_outside _ _ _ _ (by omega),
    byteAt_writeU32_outside _ _ _ _ (by omega)]

/-- C4 counterexample: `gracht_server_respond` copies the 32-bit word at
offset 0 of the request payload (src/server.c line 533), while
`server_invoke_action` reads the request id at the parse cursor
(src/server.c line 450).  For a received message whose cursor is 4 the two
differ: the response carries 1 while the dispatched id was 2. -/
theorem respond_id_mismatch_cex :
    responseIdOf (gracht_server_respond []
        (some { client := 7, payload := [1, 0, 0, 0, 2, 0, 0, 0, 0, 0, 0, 0], index := 4 })
        (some { data := List.replicate 12 0, index := 12 })) = some 1 ∧
    server_invoke_action_messageId
        { client := 7, payload := [1, 0, 0, 0, 2, 0, 0, 0, 0, 0, 0, 0], index := 4 } = 2 := by
  exact ⟨rfl, rfl⟩

/-- C4 (amended): for every received message whose parse cursor is 0 — the
header at the start of the payload, which is where `server_invoke_action`
reads it — the id word of the outgoing response equals the id
`server_invoke_action` read at the request's parse cursor. -/
theorem respond_id_of_cursor_zero (clients : Registry) (ctx : RecvMessage)
    (message : GrachtBuffer) (h0 : ctx.index = 0) (hlen : 3 < message.data.length) :
    responseIdOf (gracht_server_respond clients (some ctx) (some message)) =
      some (server_invoke_action_messageId ctx) := by
  have hv : readU32 (writeU32 (writeU32 message.data 0 (readU32 ctx.payload 0))
      4 message.index) 0 = readU32 ctx.payload 0 := by
    rw [readU32_writeU32_disjoint _ _ _ _ (by omega),
      readU32_writeU32_same _ _ _ (by omega),
      Nat.mod_eq_of_lt (readU32_lt _ _)]
  cases hh : hashtable_get clients ctx.client with
  | none => simp [gracht_server_respond, responseIdOf, hh, hv,
      server_invoke_action_messageId, h0]
  | some entry => simp [gracht_server_respond, responseIdOf, hh, hv,
      server_invoke_action_messageId, h0]

theorem respond_id_of_cursor_zero_witness :
    responseIdOf (gracht_server_respond []
        (some { client := 7, payload := [9, 0, 0, 0], index := 0 })
        (some { data := List.replicate 8 0, index := 4 })) =
      some (server_invoke_action_messageId
        { client := 7, payload := [9, 0, 0, 0], index := 0 }) :=
  respond_id_of_cursor_zero [] _ _ rfl (by simp)

/-- C5 (code bug): every receive through `socket_link_recv` — in both
blocking modes — hands the underlying `recv`/`recvmsg` call a flag word
that has `MSG_WAITALL` set, also on a packet-based (datagram) link: the
converted flags start from `MSG_WAITALL` (src/link/socket/client.c line
230) and are passed through to `recvmsg` in `socket_link_recv_packet`,
despite the comment there saying to avoid `MSG_WAITALL`. -/
theorem recv_packet_flags_include_waitall :
    socket_link_recv_underlying_flags SocketType.packetBased true =
      Except.ok { waitall := true, dontwait := false } ∧
    socket_link_recv_underlying_flags SocketType.packetBased false =
      Except.ok { waitall := true, dontwait := true } :=
  ⟨rfl, rfl⟩

/-- C6 counterexample: a stream receive whose header read returns 0 bytes
fails with `ENODATA`, and `handle_async_event` treats that as the
transient end of the drain loop: the client stays in the registry, no
disconnect callback fires and no `destroy_client` runs — the connection is
not transitioned to disconnected. -/
theorem stream_zero_read_not_disconnect_cex :
    socket_link_recv_stream 0 0 32 1 = Except.error Errno.ENODATA ∧
    handle_async_event
        { initialized := true, listen_handle := some 1, dgram_handle := some 2,
          clients := [(5, { handle := 5, subscriptions := List.replicate 8 0 })],
          protocols := [0], hasConnectedCb := false, hasDisconnectedCb := true }
        5 { input := true, disconnect := false, other := false }
        [RecvOutcome.err Errno.ENODATA] =
      { status := 0,
        state :=
          { initialized := true, listen_handle := some 1, dgram_handle := some 2,
            clients := [(5, { handle := 5, subscriptions := List.replicate 8 0 })],
            protocols := [0], hasConnectedCb := false, hasDisconnectedCb := true },
        log := [], bufOps := [BufOp.get, BufOp.put], dispatched := 0 } :=
  ⟨rfl, rfl⟩

/-- C6 (amended): a stream read returning 0 bytes makes the receive fail
with `ENODATA`, which the event handler treats as a transient no-data
condition: the receive buffer is returned, the drain loop ends, and the
client record stays registered untouched; the transition to disconnected
is driven by the `DISCONNECT` readiness event instead. -/
theorem stream_zero_read_transient (st : ServerState) (handle : Nat)
    (c : ServerClient) (payloadBytes msgLength paramIn : Nat)
    (rest : List RecvOutcome)
    (hget : hashtable_get st.clients handle = some c) :
    socket_link_recv_stream 0 payloadBytes msgLength paramIn =
      Except.error Errno.ENODATA ∧
    handle_async_event st handle { input := true, disconnect := false, other := false }
        (RecvOutcome.err Errno.ENODATA :: rest) =
      { status := 0, state := st, log := [], bufOps := [BufOp.get, BufOp.put],
        dispatched := 0 } := by
  constructor
  · simp [socket_link_recv_stream, sizeof_gracht_message]
  · simp [handle_async_event, hget, drain_loop]

theorem stream_zero_read_transient_witness :
    socket_link_recv_stream 0 0 0 0 = Except.error Errno.ENODATA ∧
    handle_async_event
        { initialized := true, listen_handle := none, dgram_handle := none,
          clients := [(9, { handle := 9, subscriptions := List.replicate 8 0 })],
          protocols := [0], hasConnectedCb := true, hasDisconnectedCb := true }
        9 { input := true, disconnect := false, other := false }
        [RecvOutcome.err Errno.ENODATA] =
      { status := 0,
        state :=
          { initialized := true, listen_handle := none, dgram_handle := none,
            clients := [(9, { handle := 9, subscriptions := List.replicate 8 0 })],
            protocols := [0], hasConnectedCb := true, hasDisconnectedCb := true },
        log := [], bufOps := [BufOp.get, BufOp.put], dispatched := 0 } :=
  stream_zero_read_transient _ 9 { handle := 9, subscriptions := List.replicate 8 0 }
    0 0 0 [] (by simp [hashtable_get])

/-- C7: a message whose header length equals the maximum message size
passes the size check (the send never fails with `E2BIG`), while any
message one byte larger (or more) fails with `E2BIG` before `sendmsg` is
reached, so no bytes are transmitted. -/
theorem send_too_large_boundary (stype : SocketType)
    (maxMessageSize len sendmsgBytes : Nat) :
    ((socket_link_send stype maxMessageSize maxMessageSize sendmsgBytes).errno ≠
      some Errno.E2BIG) ∧
    (maxMessageSize < len →
      socket_link_send stype len maxMessageSize sendmsgBytes =
        { isError := true, errno := some Errno.E2BIG, transmitted := false }) := by
  constructor
  · cases stype <;> simp [socket_link_send] <;> split <;> simp
  · intro h
    simp [socket_link_send, h]

theorem send_too_large_boundary_witness :
    ((socket_link_send SocketType.streamBased 100 100 100).errno ≠
      some Errno.E2BIG) ∧
    socket_link_send SocketType.streamBased 101 100 100 =
      { isError := true, errno := some Errno.E2BIG, transmitted := false } :=
  ⟨(send_too_large_boundary SocketType.streamBased 100 101 100).1,
    (send_too_large_boundary SocketType.streamBased 100 101 100).2 (by decide)⟩

/-- C8: `gracht_server_initialize` fails with `EALREADY` when the server
is already initialized and with `EINVAL` when the configuration is null;
`ENOTSUP` from either of the stream-listen or datagram-listen endpoint
creations is tolerated (initialization still succeeds with the other
endpoint), both endpoints absent is a failure, and on success the server
is marked initialized. -/
theorem initialize_spec (st : ServerState) (config : Option Unit)
    (configureOk : Bool) (ls ld : Except Errno Nat) :
    (st.initialized = true →
      gracht_server_initialize_impl st config configureOk ls ld =
        { status := -1, errnoSet := some Errno.EALREADY, state := st }) ∧
    (st.initialized = false → config = none →
      gracht_server_initialize_impl st config configureOk ls ld =
        { status := -1, errnoSet := some Errno.EINVAL, state := st }) ∧
    (∀ hd, st.initialized = false → config = some () → configureOk = true →
      ls = Except.error Errno.ENOTSUP → ld = Except.ok hd →
      (gracht_server_initialize_impl st config configureOk ls ld).status = 0) ∧
    (∀ hs, st.initialized = false → config = some () → configureOk = true →
      ls = Except.ok hs → ld = Except.error Errno.ENOTSUP →
      (gracht_server_initialize_impl st config configureOk ls ld).status = 0) ∧
    (st.initialized = false → config = some () → configureOk = true →
      ls = Except.error Errno.ENOTSUP → ld = Except.error Errno.ENOTSUP →
      (gracht_server_initialize_impl st config configureOk ls ld).status = -1) ∧
    ((gracht_server_initialize_impl st config configureOk ls ld).status = 0 →
      (gracht_server_initialize_impl st config configureOk ls ld).state.initialized = true) := by
  refine ⟨?_, ?_, ?_, ?_, ?_, ?_⟩
  · intro hinit
    simp [gracht_server_initialize_impl, hinit]
  · intro hinit hcfg
    simp [gracht_server_initialize_impl, hinit, hcfg]
  · intro hd hinit hcfg hok hls hld
    simp [gracht_server_initialize_impl, hinit, hcfg, hok, hls, hld, create_links]
  · intro hs hinit hcfg hok hls hld
    simp [gracht_server_initialize_impl, hinit, hcfg, hok, hls, hld, create_links]
  · intro hinit hcfg hok hls hld
    simp [gracht_server_initialize_impl, hinit, hcfg, hok, hls, hld, create_links]
  · intro hst
    unfold gracht_server_initialize_impl at hst ⊢
    by_cases h1 : st.initialized = true
    · simp [h1] at hst
    · by_cases h2 : config.isNone = true
      · simp [h1, h2] at hst
      · by_cases h3 : (!configureOk) = true
        · simp [h1, h2, h3] at hst
        · rcases hcl : create_links ls ld with ⟨s, sh, dh⟩
          by_cases hs0 : s ≠ 0
          · simp [h1, h2, h3, hcl, hs0] at hst
          · simp [h1, h2, h3, hcl, hs0] at hst ⊢

theorem initialize_spec_witness :
    (gracht_server_initialize_impl
      { initialized := false, listen_handle := none, dgram_handle := none,
        clients := [], protocols := [], hasConnectedCb := false,
        hasDisconnectedCb := false }
      (some ()) true (Except.ok 3) (Except.error Errno.ENOTSUP)).status = 0 :=
  (initialize_spec
    { initialized := false, listen_handle := none, dgram_handle := none,
      clients := [], protocols := [], hasConnectedCb := false,
      hasDisconnectedCb := false }
    (some ()) true (Except.ok 3) (Except.error Errno.ENOTSUP)).2.2.2.1
    3 rfl rfl rfl rfl rfl

/-- C10: for a handle that is neither the listening handle, nor the
datagram handle, nor a key in the client registry, `gracht_server_handle_event`
with an `IN` (or empty) event mask returns 0 and is a no-op: the server
state (client and protocol registries included) is unchanged, no link or
callback call happens, no buffer is acquired or returned, and nothing is
dispatched — the drain loop is never entered. -/
theorem handle_event_unknown_handle_noop (st : ServerState) (handle : Nat)
    (events : AioEvents) (acceptResult : Option ServerClient)
    (recvTrace : List RecvOutcome)
    (hl : st.listen_handle ≠ some handle)
    (hd : st.dgram_handle ≠ some handle)
    (hc : hashtable_get st.clients handle = none)
    (hdc : events.disconnect = false)
    (hin : events.input = true ∨ (events.input = false ∧ events.other = false)) :
    gracht_server_handle_event st handle events acceptResult recvTrace =
      { status := 0, state := st, log := [], bufOps := [], dispatched := 0 } := by
  unfold gracht_server_handle_event handle_async_event
  rcases hin with hin | ⟨hin, hot⟩
  · simp [hl, hd, hdc, hin, hc]
  · simp [hl, hd, hdc, hin, hot, hc]

theorem handle_event_unknown_handle_noop_witness :
    gracht_server_handle_event
        { initialized := true, listen_handle := some 1, dgram_handle := some 2,
          clients := [(5, { handle := 5, subscriptions := List.replicate 8 0 })],
          protocols := [0, 3], hasConnectedCb := true, hasDisconnectedCb := true }
        7 { input := true, disconnect := false, other := false }
        (some { handle := 8, subscriptions := List.replicate 8 0 })
        [RecvOutcome.okDispatched, RecvOutcome.err Errno.ENODATA] =
      { status := 0,
        state :=
          { initialized := true, listen_handle := some 1, dgram_handle := some 2,
            clients := [(5, { handle := 5, subscriptions := List.replicate 8 0 })],
            protocols := [0, 3], hasConnectedCb := true, hasDisconnectedCb := true },
        log := [], bufOps := [], dispatched := 0 } :=
  handle_event_unknown_handle_noop _ 7 _ _ _ (by simp) (by simp)
    (by simp [hashtable_get]) rfl (Or.inl rfl)

end Gracht
